import Mathlib

/-
Verification of the TrackedState cell of src/src/main.rs.

The whole core of the repository is the generic struct TrackedState together
with its methods new, update, reset, assert_updated, get, get_with_location,
map and map_mut (lines 5 to 72 of src/src/main.rs).  Every definition below is
a direct shallow embedding of that code: methods taking the receiver by value
return the new receiver state, methods taking it by shared reference return
only their result (they cannot mutate), and the one fallible method
(assert_updated, whose assert! macro aborts the process on failure) is
embedded as Except, with Except.error standing for the fatal abort.
-/

/-- Embedding of the Rust struct TrackedState from lines 5 to 12 of
src/src/main.rs: an optional payload, an optional provenance string and a
diagnostic name. -/
structure TrackedState (Q : Type) where
  value : Option Q
  update_location : Option String
  name : String

/-- The provenance string written by TrackedState.update.  The Rust code at
line 28 stores format of file and line macros; both expand at the definition
site of update inside src/main.rs, so every call of update stores this one
constant string. -/
def updateLoc : String := "src/main.rs:28"

/-- The provenance string written by TrackedState.map_mut.  The Rust code at
line 69 stores format of file and line macros expanded at the definition site
of map_mut, so every map_mut call that fires stores this one constant
string. -/
def mapMutLoc : String := "src/main.rs:69"

namespace TrackedState

variable {Q R : Type}

/-- Embedding of the method new from lines 18 to 24: value and provenance
start absent, the name is stored. -/
def new (name : String) : TrackedState Q :=
  ⟨none, none, name⟩

/-- Embedding of the method update from lines 26 to 29: stores the value and
records the constant provenance string; the name field is not touched. -/
def update (s : TrackedState Q) (v : Q) : TrackedState Q :=
  ⟨some v, some updateLoc, s.name⟩

/-- Embedding of the method reset from lines 31 to 34: clears value and
provenance unconditionally; the name field is not touched. -/
def reset (s : TrackedState Q) : TrackedState Q :=
  ⟨none, none, s.name⟩

/-- The apostrophe character appearing in the panic message of
assert_updated (code point 39). -/
def quoteChar : Char := Char.ofNat 39

/-- Text of the panic message of assert_updated before the cell name. -/
def assertPre : String := "State variable " ++ String.singleton quoteChar

/-- Text of the panic message of assert_updated after the cell name. -/
def assertPost : String := String.singleton quoteChar ++ " was not updated!"

/-- The panic message of the assert! macro at lines 37 to 41, with the name
of the cell spliced into the middle. -/
def assertMsg (name : String) : String :=
  assertPre ++ name ++ assertPost

/-- Embedding of the method assert_updated from lines 36 to 42: the assert!
macro either succeeds silently or aborts the process with the message naming
the cell; the abort is embedded as Except.error carrying the message. -/
def assert_updated (s : TrackedState Q) : Except String Unit :=
  if s.value.isSome then Except.ok () else Except.error (assertMsg s.name)

/-- Embedding of the method get from lines 44 to 46: returns the value if
present; the receiver is a shared reference, so the cell is unchanged. -/
def get (s : TrackedState Q) : Option Q :=
  s.value

/-- Embedding of the method get_with_location from lines 48 to 53. -/
def get_with_location (s : TrackedState Q) : Option (Q × String) :=
  match s.value, s.update_location with
  | some val, some loc => some (val, loc)
  | _, _ => none

/-- Embedding of the method map from lines 55 to 60: applies f to the value
under a shared borrow of the receiver and returns the result; none if the
cell is empty. -/
def map (s : TrackedState Q) (f : Q → R) : Option R :=
  s.value.map f

/-- A map call observed together with its receiver.  In the Rust source the
method map takes the receiver by shared reference, so when the call returns
the caller still holds the receiver in exactly the state it was in before;
this definition makes that frame condition an explicit object. -/
def map_call (s : TrackedState Q) (f : Q → R) : Option R × TrackedState Q :=
  (s.value.map f, s)

/-- Embedding of the method map_mut from lines 62 to 71: when a value is
present it is replaced by the result of f and the constant provenance string
of map_mut is recorded; when the cell is empty nothing happens at all. -/
def map_mut (s : TrackedState Q) (f : Q → Q) : TrackedState Q :=
  match s.value with
  | some val => ⟨some (f val), some mapMutLoc, s.name⟩
  | none => s

/-- The fatal message of the strict double write policy; its exact text is
not fixed by the spec, only that it is fatal. -/
def doubleWriteMsg (name : String) : String :=
  "DoubleWrite: state variable " ++ String.singleton quoteChar ++ name ++
    String.singleton quoteChar ++ " was already written this cycle"

/-- Modelled from the spec: the strict update policy of section 4.1, choice
(a), and the DoubleWrite error of section 7 — update fails fatally when a
value is already present in the same cycle.  This policy is absent from
src/src/main.rs, whose update is the permissive choice (b); the definition
exists only to compare the code against the strict policy the spec names. -/
def update_strict (s : TrackedState Q) (v : Q) : Except String (TrackedState Q) :=
  if s.value.isSome then Except.error (doubleWriteMsg s.name) else Except.ok (s.update v)

end TrackedState

/-- The mutating operations of the TrackedState interface.  The remaining
methods (get, get_with_location, map, assert_updated) take the receiver by
shared reference in the source and therefore cannot change the cell, so a
sequence of calls changes the cell exactly through a list of these. -/
inductive Op (Q : Type) where
  | update (v : Q)
  | reset
  | map_mut (f : Q → Q)

/-- Runs one mutating operation on a cell. -/
def apply {Q : Type} (s : TrackedState Q) : Op Q → TrackedState Q
  | Op.update v => s.update v
  | Op.reset => s.reset
  | Op.map_mut f => s.map_mut f

/-- Runs a sequence of mutating operations on a cell, oldest first. -/
def runOps {Q : Type} (s : TrackedState Q) (ops : List (Op Q)) : TrackedState Q :=
  ops.foldl apply s

/-- The provenance coupling invariant of the spec: the provenance field is
present exactly when the value field is present. -/
def coupled {Q : Type} (s : TrackedState Q) : Prop :=
  s.value.isSome = s.update_location.isSome

/-- Helper: a freshly constructed cell satisfies the coupling invariant. -/
theorem coupled_new {Q : Type} (name : String) :
    coupled (TrackedState.new name : TrackedState Q) := by
  simp [coupled, TrackedState.new]

/-- Helper: every mutating operation preserves the coupling invariant. -/
theorem coupled_apply {Q : Type} (s : TrackedState Q) (h : coupled s) (op : Op Q) :
    coupled (apply s op) := by
  cases op with
  | update v => simp [apply, TrackedState.update, coupled]
  | reset => simp [apply, TrackedState.reset, coupled]
  | map_mut f =>
    cases hv : s.value with
    | none => simpa [apply, TrackedState.map_mut, hv] using h
    | some val => simp [apply, TrackedState.map_mut, hv, coupled]

/-- Helper: the coupling invariant is preserved by any operation sequence. -/
theorem coupled_runOps {Q : Type} (s : TrackedState Q) (h : coupled s) (ops : List (Op Q)) :
    coupled (runOps s ops) := by
  induction ops generalizing s with
  | nil => exact h
  | cons op rest ih => exact ih (apply s op) (coupled_apply s h op)

/-- Helper: no mutating operation changes the name field. -/
theorem apply_name {Q : Type} (s : TrackedState Q) (op : Op Q) :
    (apply s op).name = s.name := by
  cases op with
  | update v => rfl
  | reset => rfl
  | map_mut f => cases hv : s.value <;> simp [apply, TrackedState.map_mut, hv]

/-- Helper: no operation sequence changes the name field. -/
theorem runOps_name {Q : Type} (s : TrackedState Q) (ops : List (Op Q)) :
    (runOps s ops).name = s.name := by
  induction ops generalizing s with
  | nil => rfl
  | cons op rest ih => exact (ih (apply s op)).trans (apply_name s op)

/-- Helper: map_mut on a written cell records the constant map_mut
provenance string. -/
theorem map_mut_loc {Q : Type} (s : TrackedState Q) (f : Q → Q)
    (h : s.value.isSome = true) :
    (s.map_mut f).update_location = some mapMutLoc := by
  cases hv : s.value with
  | none => rw [hv] at h; exact absurd h (by simp)
  | some val => simp [TrackedState.map_mut, hv]

/-- Claim C1: assert_updated succeeds exactly when get returns a value; on an
empty cell it fails fatally with the panic message, and that message contains
the stored name of the cell. -/
theorem C1_assert_gate (Q : Type) (s : TrackedState Q) :
    (s.assert_updated = Except.ok () ↔ s.get.isSome = true) ∧
    (s.get = none → s.assert_updated = Except.error (TrackedState.assertMsg s.name)) ∧
    (∃ pre post, TrackedState.assertMsg s.name = pre ++ s.name ++ post) := by
  refine ⟨?_, ?_, ⟨TrackedState.assertPre, TrackedState.assertPost, rfl⟩⟩
  · cases hv : s.value with
    | none => simp [TrackedState.assert_updated, TrackedState.get, hv]
    | some v => simp [TrackedState.assert_updated, TrackedState.get, hv]
  · intro hv
    simp [TrackedState.get] at hv
    simp [TrackedState.assert_updated, hv]

/-- Witness for C1 on concrete cells: a fresh cell fails the assert with the
message naming it, and an updated cell passes. -/
theorem C1_witness :
    ((TrackedState.new "battery_dimensions" : TrackedState Nat).assert_updated =
      Except.error (TrackedState.assertMsg "battery_dimensions")) ∧
    (((TrackedState.new "t" : TrackedState Nat).update 5).assert_updated = Except.ok ()) := by
  constructor
  · exact (C1_assert_gate Nat (TrackedState.new "battery_dimensions")).2.1 rfl
  · exact ((C1_assert_gate Nat ((TrackedState.new "t").update 5)).1).2 rfl

/-- Claim C2: the provenance field is present exactly when the value field is
present; this holds for a freshly constructed cell, for every cell reachable
from construction by any sequence of mutating operations, and each single
mutating operation preserves it.  The observer methods get, map,
get_with_location and assert_updated take the receiver by shared reference
and return no cell, so they preserve every property of the cell trivially. -/
theorem C2_provenance_coupling (Q : Type) (name : String) (ops : List (Op Q)) :
    coupled (TrackedState.new name : TrackedState Q) ∧
    coupled (runOps (TrackedState.new name : TrackedState Q) ops) ∧
    (∀ (s : TrackedState Q) (op : Op Q), coupled s → coupled (apply s op)) := by
  exact ⟨coupled_new name, coupled_runOps (TrackedState.new name) (coupled_new name) ops,
    fun s op h => coupled_apply s h op⟩

/-- Witness for C2 on a concrete run and a concrete preservation step. -/
theorem C2_witness :
    coupled (runOps (TrackedState.new "t" : TrackedState Nat)
      [Op.update 3, Op.map_mut (fun x => x + 1), Op.reset]) ∧
    coupled (apply (TrackedState.new "t" : TrackedState Nat) (Op.update 7)) := by
  constructor
  · exact (C2_provenance_coupling Nat "t"
      [Op.update 3, Op.map_mut (fun x => x + 1), Op.reset]).2.1
  · exact (C2_provenance_coupling Nat "t" []).2.2 (TrackedState.new "t") (Op.update 7) rfl

/-- Claim C3: get returns none immediately after construction and immediately
after reset, and returns the written value immediately after update. -/
theorem C3_write_before_read (Q : Type) (name : String) (s : TrackedState Q) (v : Q) :
    (TrackedState.new name : TrackedState Q).get = none ∧
    s.reset.get = none ∧
    (s.update v).get = some v :=
  ⟨rfl, rfl, rfl⟩

/-- Claim C4: on a freshly constructed cell, a second update silently
replaces the first value, so get returns the second value. -/
theorem C4_permissive_overwrite (Q : Type) (name : String) (v1 v2 : Q) :
    (((TrackedState.new name : TrackedState Q).update v1).update v2).get = some v2 :=
  rfl

/-- Counterexample to C5 as stated: in the code, update on an already written
cell does not fail at all.  After update 1 then update 2 on a fresh cell the
second call returns normally, the cell is a readable written cell holding the
second value, and the assert gate passes; the strict policy modelled from the
spec would instead have rejected the second call with a fatal DoubleWrite
error, so the code disagrees with the strict policy at this input. -/
theorem C5_counterexample :
    ((((TrackedState.new "c" : TrackedState Nat).update 1).update 2).get = some 2) ∧
    ((((TrackedState.new "c" : TrackedState Nat).update 1).update 2).assert_updated =
      Except.ok ()) ∧
    (TrackedState.update_strict ((TrackedState.new "c" : TrackedState Nat).update 1) 2 =
      Except.error (TrackedState.doubleWriteMsg "c")) :=
  ⟨rfl, rfl, rfl⟩

/-- Claim C5 as amended: the update of the code is infallible and implements
the permissive policy — called on any cell, already written or not, it
succeeds, stores the new value, and leaves the cell passing the assert
gate. -/
theorem C5_update_total_overwrite (Q : Type) (s : TrackedState Q) (v : Q) :
    (s.update v).get = some v ∧ (s.update v).assert_updated = Except.ok () :=
  ⟨rfl, rfl⟩

/-- Claim C6: map_mut on a written cell replaces the value by the result of f
and records the new provenance; on an empty cell it leaves the whole cell
state unchanged and does not fail. -/
theorem C6_map_mut_spec (Q : Type) (s : TrackedState Q) (f : Q → Q) (v : Q) :
    (s.value = some v →
      (s.map_mut f).get = some (f v) ∧ (s.map_mut f).update_location = some mapMutLoc) ∧
    (s.value = none → s.map_mut f = s ∧ (s.map_mut f).get = none) := by
  constructor
  · intro hv
    constructor
    · simp [TrackedState.map_mut, TrackedState.get, hv]
    · simp [TrackedState.map_mut, hv]
  · intro hv
    constructor
    · simp [TrackedState.map_mut, hv]
    · simp [TrackedState.map_mut, TrackedState.get, hv]

/-- Witness for C6 on a written cell and on an empty cell. -/
theorem C6_witness :
    ((((TrackedState.new "t" : TrackedState Nat).update 3).map_mut (fun x => x + 1)).get =
        some 4 ∧
      (((TrackedState.new "t" : TrackedState Nat).update 3).map_mut
          (fun x => x + 1)).update_location = some mapMutLoc) ∧
    ((TrackedState.new "e" : TrackedState Nat).map_mut (fun x => x + 1) =
        TrackedState.new "e" ∧
      ((TrackedState.new "e" : TrackedState Nat).map_mut (fun x => x + 1)).get = none) := by
  constructor
  · exact (C6_map_mut_spec Nat ((TrackedState.new "t").update 3) (fun x => x + 1) 3).1 rfl
  · exact (C6_map_mut_spec Nat (TrackedState.new "e") (fun x => x + 1) 0).2 rfl

/-- Claim C7: map is pure — the receiver is held only by shared reference, so
after the call the caller still has the cell in exactly its previous state
with the same get result and the same provenance; the return value is the
image of the stored value under f, and none when the cell is empty. -/
theorem C7_map_purity (Q R : Type) (s : TrackedState Q) (f : Q → R) (v : Q) :
    ((s.map_call f).2 = s ∧ (s.map_call f).2.get = s.get ∧
      (s.map_call f).2.update_location = s.update_location ∧
      (s.map_call f).1 = s.map f) ∧
    (s.value = some v → s.map f = some (f v)) ∧
    (s.value = none → s.map f = none) := by
  refine ⟨⟨rfl, rfl, rfl, rfl⟩, ?_, ?_⟩
  · intro hv; simp [TrackedState.map, hv]
  · intro hv; simp [TrackedState.map, hv]

/-- Witness for C7 on a written cell and on an empty cell. -/
theorem C7_witness :
    (((TrackedState.new "t" : TrackedState Nat).update 3).map (fun x => x * 2) = some 6) ∧
    ((TrackedState.new "e" : TrackedState Nat).map (fun x : Nat => x * 2) = none) := by
  constructor
  · exact (C7_map_purity Nat Nat ((TrackedState.new "t").update 3) (fun x => x * 2) 3).2.1 rfl
  · exact (C7_map_purity Nat Nat (TrackedState.new "e") (fun x => x * 2) 0).2.2 rfl

/-- Claim C8: reset on a freshly constructed cell gives back the fresh cell,
reset on any empty cell (value and provenance both absent) is a no-op, reset
is total so it never fails, and reset twice equals reset once. -/
theorem C8_reset_idempotent (Q : Type) (s : TrackedState Q) (name : String) :
    ((TrackedState.new name : TrackedState Q).reset = TrackedState.new name) ∧
    (s.get = none ∧ s.update_location = none → s.reset = s) ∧
    (s.reset.reset = s.reset) := by
  refine ⟨rfl, ?_, rfl⟩
  rintro ⟨h1, h2⟩
  cases s with
  | mk v l n =>
    simp [TrackedState.get] at h1
    simp at h2
    subst h1
    subst h2
    rfl

/-- Witness for C8: reset of a concrete empty cell is that same cell, and a
double reset of a concrete written cell equals the single reset. -/
theorem C8_witness :
    ((TrackedState.new "t" : TrackedState Nat).reset = TrackedState.new "t") ∧
    (((TrackedState.new "u" : TrackedState Nat).update 4).reset.reset =
      ((TrackedState.new "u" : TrackedState Nat).update 4).reset) := by
  constructor
  · exact (C8_reset_idempotent Nat (TrackedState.new "t") "t").2.1 ⟨rfl, rfl⟩
  · exact (C8_reset_idempotent Nat ((TrackedState.new "u").update 4) "u").2.2

/-- Claim C9: the name is fixed at construction; no single mutating operation
changes it, and after any sequence of mutating operations on a cell built
with a given name the name field still equals that name.  The observer
methods return no cell at all, so they cannot touch the name. -/
theorem C9_name_immutable (Q : Type) (n : String) (ops : List (Op Q)) :
    (∀ (s : TrackedState Q) (op : Op Q), (apply s op).name = s.name) ∧
    (runOps (TrackedState.new n : TrackedState Q) ops).name = n :=
  ⟨fun s op => apply_name s op, runOps_name (TrackedState.new n) ops⟩

/-- Claim C10: the provenance recorded by update is one fixed constant string
independent of the value, the prior cell state and the caller, so any two
update calls record identical provenance; likewise map_mut on written cells
always records its own fixed constant string, so any two such calls record
identical provenance — provenance does not distinguish distinct write
sites. -/
theorem C10_provenance_constant (Q1 Q2 : Type) (s1 : TrackedState Q1)
    (s2 : TrackedState Q2) (v1 : Q1) (v2 : Q2) (f : Q1 → Q1) (g : Q2 → Q2) :
    ((s1.update v1).update_location = some updateLoc) ∧
    ((s1.update v1).update_location = (s2.update v2).update_location) ∧
    (s1.value.isSome = true → (s1.map_mut f).update_location = some mapMutLoc) ∧
    (s1.value.isSome = true → s2.value.isSome = true →
      (s1.map_mut f).update_location = (s2.map_mut g).update_location) :=
  ⟨rfl, rfl, fun h1 => map_mut_loc s1 f h1,
    fun h1 h2 => (map_mut_loc s1 f h1).trans (map_mut_loc s2 g h2).symm⟩

/-- Witness for C10: two concrete update calls on cells of different types
record equal provenance, and two concrete map_mut calls on written cells of
different types record equal provenance. -/
theorem C10_witness :
    (((TrackedState.new "a" : TrackedState Nat).update 1).update_location =
      ((TrackedState.new "b" : TrackedState Bool).update true).update_location) ∧
    ((((TrackedState.new "a" : TrackedState Nat).update 1).map_mut
        (fun x => x + 1)).update_location =
      (((TrackedState.new "b" : TrackedState Bool).update true).map_mut
        (fun x => !x)).update_location) := by
  constructor
  · exact (C10_provenance_constant Nat Bool (TrackedState.new "a") (TrackedState.new "b")
      1 true (fun x => x + 1) (fun x => !x)).2.1
  · exact (C10_provenance_constant Nat Bool ((TrackedState.new "a").update 1)
      ((TrackedState.new "b").update true) 1 true (fun x => x + 1) (fun x => !x)).2.2.2
      rfl rfl
